import Mathlib

/-!
# Shuffle Battle — verification of the orchestration core

Shallow embedding of the two pipeline variants of the Shuffle Battle
front-end:

* `App` — the popularity-comparison variant (`src/src/App.jsx`): fetch both
  the tracks and display metadata of both playlists, average track popularity, declare
  the *less* popular playlist "more underground".
* `Category` — the audio-feature variant (`src/unnamed/part_000`): map a
  user-facing category label to a feature key, fetch tracks and batch audio
  features, average the chosen feature and compare.

Network calls are modelled by passing the upstream response as an explicit
argument (an `Except` value: `.error` stands for a transport/HTTP failure).
Functions that issue requests also report how many playlist/feature requests
they performed, so that "no network call happens" is a provable statement.
JavaScript numbers are modelled as `Rat`; JS truthiness on strings
(`null`/`undefined`/`""` are falsy) is modelled on `Option String`.
-/

namespace ShuffleBattle

/-- Characters accepted by the regex character class `[a-zA-Z0-9]`. -/
def isAlnumChar (c : Char) : Bool :=
  ('a' ≤ c && c ≤ 'z') || ('A' ≤ c && c ≤ 'Z') || ('0' ≤ c && c ≤ '9')

/-- The literal `playlist/` that the extraction regex
`/playlist\x2f([a-zA-Z0-9]\x7b22\x7d)/` requires before the captured group. -/
def playlistLit : List Char := ['p', 'l', 'a', 'y', 'l', 'i', 's', 't', '/']

/-- One attempt of the regex engine at the current position: succeed exactly
when the string starts with `playlist/` followed by at least 22 alphanumeric
characters, capturing the first 22 of them. -/
def tryMatchHere (s : List Char) : Option (List Char) :=
  if s.take 9 = playlistLit then
    let cand := (s.drop 9).take 22
    if cand.length = 22 && cand.all isAlnumChar then some cand else none
  else none

/-- `extractPlaylistId` from both `App.jsx` and the category variant:
`url.match(/playlist\x2f([a-zA-Z0-9]\x7b22\x7d)/)` returns the capture of the
leftmost match, and the function returns `null` (here `none`) when the regex
does not match anywhere. -/
def extractPlaylistId : List Char → Option (List Char)
  | [] => none
  | c :: rest =>
    match tryMatchHere (c :: rest) with
    | some s => some s
    | none => extractPlaylistId rest

/-- The module-level credential cache: `let token = null` and
`let tokenExpirationTime = null` in both files. `none` models JS `null`. -/
structure TokenState where
  token : Option String
  tokenExpirationTime : Option Int
  deriving DecidableEq, Repr

/-- Body of a successful token exchange: `{access_token, expires_in}`
(`expires_in` in seconds). -/
structure TokenResponse where
  access_token : String
  expires_in : Int
  deriving DecidableEq, Repr

/-- JS truthiness of the cached `token` variable: `null` and `""` are falsy. -/
def truthyToken : Option String → Bool
  | none => false
  | some t => t ≠ ""

/-- The comparison `tokenExpirationTime > Date.now()`: JS coerces `null`
to `0` before the numeric comparison. -/
def expiryValue (e : Option Int) : Int := e.getD 0

/-- The guard `token && tokenExpirationTime > Date.now()` of `getToken`. -/
def cacheValid (st : TokenState) (now : Int) : Bool :=
  truthyToken st.token && decide (expiryValue st.tokenExpirationTime > now)

/-- `getToken` (identical in both files). `now` is `Date.now()` in
milliseconds; `resp` is the outcome of the token-exchange POST, supplied as an
oracle. The result is the returned value (or the thrown error message), the
cache state after the call, and the number of exchange requests issued. On a
cache hit the cached token is returned with no request; otherwise one request
is issued and, on success, the cache receives the new token and expiry
`Date.now() + expires_in * 1000`. -/
def getToken (st : TokenState) (now : Int) (resp : Except Unit TokenResponse) :
    Except String String × TokenState × Nat :=
  if cacheValid st now then
    (.ok (st.token.getD ""), st, 0)
  else
    match resp with
    | .ok r =>
      (.ok r.access_token,
        { token := some r.access_token,
          tokenExpirationTime := some (now + r.expires_in * 1000) }, 1)
    | .error _ => (.error "Failed to get access token", st, 1)

namespace App

/-- The nested `item.track` object of the tracks listing. Both fields may be
`null`/absent upstream. -/
structure RawTrack where
  id : Option String
  popularity : Option Rat
  deriving DecidableEq, Repr

/-- One entry of `response.data.items`; `track` may be `null`. -/
structure PlaylistItem where
  track : Option RawTrack
  deriving DecidableEq, Repr

/-- The playlist tracks endpoint body `{items: [...]}`; `items` may be
missing. -/
structure TracksResponse where
  items : Option (List PlaylistItem)
  deriving DecidableEq, Repr

/-- The record built by `getPlaylistTracks`:
`{id: item.track.id, popularity: item.track.popularity || 0}`. -/
structure Track where
  id : String
  popularity : Option Rat
  deriving DecidableEq, Repr

/-- The filter-and-map step of `getPlaylistTracks`: keep entries whose
`item.track` and `item.track.id` are truthy, defaulting popularity to 0. -/
def keepItem (item : PlaylistItem) : Option Track :=
  match item.track with
  | none => none
  | some t =>
    match t.id with
    | none => none
    | some tid =>
      if tid = "" then none
      else some { id := tid, popularity := some (t.popularity.getD 0) }

/-- `getPlaylistTracks` of `App.jsx`: the HTTP GET is supplied as the oracle
`resp`. An errored request, a missing `items` array, or an empty `items`
array all end in the rethrown `Error("Failed to fetch playlist data")`; a
non-empty `items` array is filtered (dropping entries with a falsy `track` or
`track.id`) and mapped to `Track` records — note the emptiness check happens
on the raw `items`, before filtering. -/
def getPlaylistTracks (resp : Except Unit TracksResponse) :
    Except String (List Track) :=
  match resp with
  | .error _ => .error "Failed to fetch playlist data"
  | .ok r =>
    match r.items with
    | none => .error "Failed to fetch playlist data"
    | some items =>
      if items.length = 0 then .error "Failed to fetch playlist data"
      else .ok (items.filterMap keepItem)

/-- `calculateAveragePopularity`: 0 for an empty list, otherwise the sum of
`track.popularity || 0` divided by the number of tracks. -/
def calculateAveragePopularity (tracks : List Track) : Rat :=
  if tracks.length = 0 then 0
  else (tracks.foldl (fun sum t => sum + t.popularity.getD 0) 0) / tracks.length

/-- One cover-art entry of `response.data.images`. -/
structure ImageObj where
  url : Option String
  deriving DecidableEq, Repr

/-- Body of the playlist metadata endpoint `{name, images}`. -/
structure InfoResponse where
  name : String
  images : List ImageObj
  deriving DecidableEq, Repr

/-- The `{name, image}` pair returned by `getPlaylistInfo`. -/
structure PlaylistInfo where
  name : String
  image : String
  deriving DecidableEq, Repr

/-- `getPlaylistInfo`: display name plus `images[0]?.url || ""`. -/
def getPlaylistInfo (resp : Except Unit InfoResponse) :
    Except String PlaylistInfo :=
  match resp with
  | .error _ => .error "Failed to fetch playlist info"
  | .ok r =>
    .ok { name := r.name, image := (r.images.head?.bind (fun i => i.url)).getD "" }

/-- The result object of the popularity comparison. The tie branch builds
`{message}` with no `name`/`image` fields (modelled as `none`); the two
winner branches spread a `PlaylistInfo` into the object. -/
structure Winner where
  name : Option String
  image : Option String
  message : String
  deriving DecidableEq, Repr

/-- `determineWinner` of `App.jsx`. The four upstream responses are oracles
(tracks of playlist 1 and 2, then metadata of playlist 1 and 2, awaited in
that order). Any inner failure is caught and rethrown as
`Error("Failed to determine winner")`. The playlist with the *higher*
average popularity loses: the name and cover image of the other side are attached
to the result; equal averages produce the bare "equally underground"
message. -/
def determineWinner (r1 r2 : Except Unit TracksResponse)
    (i1 i2 : Except Unit InfoResponse) : Except String Winner :=
  match getPlaylistTracks r1 with
  | .error _ => .error "Failed to determine winner"
  | .ok tracks1 =>
    match getPlaylistTracks r2 with
    | .error _ => .error "Failed to determine winner"
    | .ok tracks2 =>
      match getPlaylistInfo i1 with
      | .error _ => .error "Failed to determine winner"
      | .ok info1 =>
        match getPlaylistInfo i2 with
        | .error _ => .error "Failed to determine winner"
        | .ok info2 =>
          if tracks1.length = 0 || tracks2.length = 0 then
            .error "Failed to determine winner"
          else
            let avgPopularity1 := calculateAveragePopularity tracks1
            let avgPopularity2 := calculateAveragePopularity tracks2
            if avgPopularity1 > avgPopularity2 then
              .ok { name := some info2.name, image := some info2.image,
                    message := info2.name ++ " is more underground, smell some good taste in there!" }
            else if avgPopularity1 < avgPopularity2 then
              .ok { name := some info1.name, image := some info1.image,
                    message := info1.name ++ " is more underground, smell some good taste in there!" }
            else
              .ok { name := none, image := none,
                    message := "Both playlists are equally underground!" }

end App

namespace Category

/-- The own-property names of `Object.prototype`. The `categoryMapping`
object literal inherits from `Object.prototype`, so looking any of these
names up on it resolves through the prototype chain to a truthy value (a
built-in function, or the prototype object itself for `__proto__`). -/
def objectPrototypeKeys : List String :=
  ["constructor", "hasOwnProperty", "isPrototypeOf", "propertyIsEnumerable",
   "toLocaleString", "toString", "valueOf", "__defineGetter__",
   "__defineSetter__", "__lookupGetter__", "__lookupSetter__", "__proto__"]

/-- A truthy result of the JS property lookup `categoryMapping[category]`:
either one of the six own entries (a feature-key string), or a member
inherited from `Object.prototype`. -/
inductive PropValue where
  | feature : String → PropValue
  | inherited : PropValue
  deriving DecidableEq, Repr

/-- The property key that `track[featureKey]` actually reads. An own entry
is already a string; an inherited function or object is coerced to a string
(the source text of the built-in function) — all that matters downstream is
that this string names none of the five feature fields, so a placeholder
stands in for the exact coerced text. -/
def PropValue.toKey : PropValue → String
  | .feature s => s
  | .inherited => "[inherited Object.prototype member]"

/-- The JS lookup `categoryMapping[category]` on the fixed object literal of
the category variant: the six own entries map to their feature keys; a name
of an `Object.prototype` member resolves through the prototype chain to a
truthy inherited value; every other label is `undefined` (`none`, falsy). -/
def categoryMapping (category : String) : Option PropValue :=
  if category = "Sadder" then some (.feature "valence")
  else if category = "Happier" then some (.feature "valence")
  else if category = "Energetic" then some (.feature "energy")
  else if category = "Danceable" then some (.feature "danceability")
  else if category = "Louder" then some (.feature "loudness")
  else if category = "Alive" then some (.feature "liveness")
  else if objectPrototypeKeys.contains category then some .inherited
  else none

/-- Nested `item.track` of the tracks listing in the category variant; only
the identifier is consumed here. -/
structure RawTrack where
  id : Option String
  deriving DecidableEq, Repr

/-- One entry of `response.data.items`; `track` may be `null` (in which case
the unguarded `item.track.id` access throws a TypeError, caught by the
handler of the same function). -/
structure PlaylistItem where
  track : Option RawTrack
  deriving DecidableEq, Repr

/-- The playlist tracks endpoint body `{items: [...]}`. -/
structure TracksResponse where
  items : Option (List PlaylistItem)
  deriving DecidableEq, Repr

/-- `getPlaylistTracks` of the category variant:
`response.data.items.map((item) => item.track.id).filter(Boolean)`. An
errored request, missing or empty `items`, or a `null` `track` on any entry
(TypeError inside the `try`) all surface as
`Error("Failed to fetch playlist data")`; otherwise the truthy identifiers
are returned — the emptiness check happens on the raw `items`, before the
`filter(Boolean)`. -/
def getPlaylistTracks (resp : Except Unit TracksResponse) :
    Except String (List String) :=
  match resp with
  | .error _ => .error "Failed to fetch playlist data"
  | .ok r =>
    match r.items with
    | none => .error "Failed to fetch playlist data"
    | some items =>
      if items.length = 0 then .error "Failed to fetch playlist data"
      else if items.any (fun item => item.track.isNone) then
        .error "Failed to fetch playlist data"
      else
        .ok (items.filterMap (fun item =>
          match item.track with
          | none => none
          | some t =>
            match t.id with
            | none => none
            | some tid => if tid = "" then none else some tid))

/-- One record of `response.data.audio_features`: the per-track feature
values; any of them may be missing. -/
structure FeatureRecord where
  valence : Option Rat
  energy : Option Rat
  danceability : Option Rat
  loudness : Option Rat
  liveness : Option Rat
  deriving DecidableEq, Repr

/-- Dynamic property access `track[featureKey]` on a feature record. -/
def FeatureRecord.lookup (t : FeatureRecord) (key : String) : Option Rat :=
  if key = "valence" then t.valence
  else if key = "energy" then t.energy
  else if key = "danceability" then t.danceability
  else if key = "loudness" then t.loudness
  else if key = "liveness" then t.liveness
  else none

/-- Body of the batch audio-features endpoint `{audio_features: [...]}`. -/
structure FeaturesResponse where
  audio_features : Option (List FeatureRecord)
  deriving DecidableEq, Repr

/-- How an upstream request can fail: with HTTP status 429 or any other
error. `getAudioFeatures` inspects `error.response.status === 429`. -/
inductive HttpFailure where
  | rateLimited
  | other
  deriving DecidableEq, Repr

/-- `getAudioFeatures`: filter the identifiers to the 22-character format
(`id && id.length === 22`), fail when none remain, issue one batch request
(the oracle `resp`), and fail when the response errors or carries no
`audio_features`. A 429 response only changes the `console.error` text;
the thrown error is the same `Error("Failed to fetch audio features")` in
every failure branch. -/
def getAudioFeatures (trackIds : List String)
    (resp : Except HttpFailure FeaturesResponse) :
    Except String (List FeatureRecord) :=
  let validTrackIds := trackIds.filter (fun id => id ≠ "" && id.length = 22)
  if validTrackIds.length = 0 then .error "Failed to fetch audio features"
  else
    match resp with
    | .error _ => .error "Failed to fetch audio features"
    | .ok r =>
      match r.audio_features with
      | none => .error "Failed to fetch audio features"
      | some fs =>
        if fs.length = 0 then .error "Failed to fetch audio features"
        else .ok fs

/-- The inline mean of lines 117–118:
`audioFeatures.reduce((sum, track) => sum + (track[featureKey] || 0), 0) /
audioFeatures.length`, a missing feature value counting as 0. In the
pipeline the list is never empty (`getAudioFeatures` rejects an empty
`audio_features` array), so the JS `0/0` case is unreachable. -/
def avgFeature (audioFeatures : List FeatureRecord) (featureKey : String) : Rat :=
  (audioFeatures.foldl (fun sum t => sum + (t.lookup featureKey).getD 0) 0) /
    audioFeatures.length

/-- The upstream responses consumed by one run of the category-variant
`determineWinner`, in request order. -/
structure Oracles where
  tracksResp1 : Except Unit TracksResponse
  tracksResp2 : Except Unit TracksResponse
  featuresResp1 : Except HttpFailure FeaturesResponse
  featuresResp2 : Except HttpFailure FeaturesResponse
  deriving Repr

/-- `determineWinner` of the category variant. Returns the value produced
(or the message of the rethrown error) together with the number of
playlist/feature requests issued. A category whose lookup is falsy —
neither an own mapping entry nor an inherited `Object.prototype` member —
returns the plain string `"Invalid category"` before any request; a truthy
lookup (inherited members included) enters the pipeline. For `"Sadder"` the
lower mean wins; for every other truthy category the higher mean wins; in
both forms the tie falls into the `else` arm of the ternary, declaring
playlist 2 the winner. -/
def determineWinner (o : Oracles) (category : String) :
    Except String String × Nat :=
  match categoryMapping category with
  | none => (.ok "Invalid category", 0)
  | some featureKey =>
    match getPlaylistTracks o.tracksResp1 with
    | .error _ => (.error "Failed to determine winner", 1)
    | .ok tracks1 =>
      match getPlaylistTracks o.tracksResp2 with
      | .error _ => (.error "Failed to determine winner", 2)
      | .ok tracks2 =>
        if tracks1.length = 0 || tracks2.length = 0 then
          (.ok "One of the playlists has no tracks.", 2)
        else
          match getAudioFeatures tracks1 o.featuresResp1 with
          | .error _ => (.error "Failed to determine winner", 3)
          | .ok audioFeatures1 =>
            match getAudioFeatures tracks2 o.featuresResp2 with
            | .error _ => (.error "Failed to determine winner", 4)
            | .ok audioFeatures2 =>
              let avgFeature1 := avgFeature audioFeatures1 featureKey.toKey
              let avgFeature2 := avgFeature audioFeatures2 featureKey.toKey
              let winner :=
                if category = "Sadder" then
                  if avgFeature1 < avgFeature2 then "Playlist 1 is sadder"
                  else "Playlist 2 is sadder"
                else
                  if avgFeature1 > avgFeature2 then
                    "Playlist 1 is more " ++ category.toLower
                  else
                    "Playlist 2 is more " ++ category.toLower
              (.ok winner, 4)

end Category

/-! ## Helper lemmas -/

theorem tryMatchHere_nil : tryMatchHere [] = none := rfl

theorem extractPlaylistId_cons (c : Char) (rest : List Char) :
    extractPlaylistId (c :: rest) =
      match tryMatchHere (c :: rest) with
      | some s => some s
      | none => extractPlaylistId rest := rfl

/-- If the regex matches at the head of the string, the extraction returns
that capture. -/
theorem extract_head (s out : List Char) (hm : tryMatchHere s = some out) :
    extractPlaylistId s = some out := by
  cases s with
  | nil => rw [tryMatchHere_nil] at hm; cases hm
  | cons c rest => rw [extractPlaylistId_cons, hm]

/-- Positions that the regex engine rejects are skipped. -/
theorem extract_skip (pre rest : List Char)
    (h : ∀ j, j < pre.length → tryMatchHere ((pre ++ rest).drop j) = none) :
    extractPlaylistId (pre ++ rest) = extractPlaylistId rest := by
  induction pre with
  | nil => rfl
  | cons c pre ih =>
    have h0 : tryMatchHere (c :: (pre ++ rest)) = none := by
      have := h 0 (Nat.succ_pos _)
      simpa using this
    rw [List.cons_append, extractPlaylistId_cons, h0]
    exact ih (fun j hj => by
      have := h (j + 1) (Nat.succ_lt_succ hj)
      simpa using this)

/-- The extraction returns `none` exactly when the regex matches at no
position of the string. -/
theorem extract_none_iff (url : List Char) :
    extractPlaylistId url = none ↔
      ∀ i, i < url.length → tryMatchHere (url.drop i) = none := by
  induction url with
  | nil => simp [extractPlaylistId]
  | cons c rest ih =>
    rw [extractPlaylistId_cons]
    cases h : tryMatchHere (c :: rest) with
    | some s =>
      simp only [reduceCtorEq, false_iff, not_forall]
      refine ⟨0, Nat.succ_pos _, ?_⟩
      rw [List.drop_zero, h]
      simp
    | none =>
      rw [ih]
      constructor
      · intro hall i hi
        cases i with
        | zero => simpa using h
        | succ n =>
          have hn : n < rest.length := Nat.lt_of_succ_lt_succ hi
          simpa using hall n hn
      · intro hall i hi
        have := hall (i + 1) (Nat.succ_lt_succ hi)
        simpa using this

/-- The regex accepts `playlist/` directly followed by a 22-character
alphanumeric block, capturing the block. -/
theorem tryMatchHere_exact (pid suf : List Char) (hlen : pid.length = 22)
    (halnum : pid.all isAlnumChar = true) :
    tryMatchHere (playlistLit ++ (pid ++ suf)) = some pid := by
  have htake : (playlistLit ++ (pid ++ suf)).take 9 = playlistLit := rfl
  have hdrop : (playlistLit ++ (pid ++ suf)).drop 9 = pid ++ suf := rfl
  have hcand : (pid ++ suf).take 22 = pid := by
    rw [← hlen]; exact List.take_left _ _
  simp [tryMatchHere, htake, hdrop, hcand, hlen, halnum]

/-- On a longer alphanumeric run the greedy `\x7b22\x7d` quantifier captures
exactly the first 22 characters. -/
theorem tryMatchHere_long (run suf : List Char) (hlen : 22 < run.length)
    (halnum : run.all isAlnumChar = true) :
    tryMatchHere (playlistLit ++ (run ++ suf)) = some (run.take 22) := by
  have htake : (playlistLit ++ (run ++ suf)).take 9 = playlistLit := rfl
  have hdrop : (playlistLit ++ (run ++ suf)).drop 9 = run ++ suf := rfl
  have hcand : (run ++ suf).take 22 = run.take 22 := by
    rw [List.take_append_eq_append_take, Nat.sub_eq_zero_of_le (le_of_lt hlen)]
    simp
  have hclen : (run.take 22).length = 22 := by
    rw [List.length_take]; omega
  have hcall : (run.take 22).all isAlnumChar = true := by
    rw [List.all_eq_true] at halnum ⊢
    exact fun x hx => halnum x (List.take_subset _ _ hx)
  simp [tryMatchHere, htake, hdrop, hcand, hclen, hcall]

/-- Folding addition of a mapped value over a list computes the sum of the
mapped list. -/
theorem foldl_add_map_sum (f : α → Rat) (l : List α) (a : Rat) :
    l.foldl (fun sum x => sum + f x) a = a + (l.map f).sum := by
  induction l generalizing a with
  | nil => simp
  | cons x xs ih => simp [ih, add_assoc]

/-! ## Claims -/

/-- C7: for every user-supplied URL, playlist-identifier extraction returns
`none` exactly when no position of the URL starts the pattern
`playlist/` + 22 alphanumerics (causing rejection before any network call),
and when the URL embeds the pattern — `pre ++ playlistLit ++ pid ++ suf`
with a 22-character alphanumeric `pid` and no match starting inside `pre` —
it returns exactly that embedded identifier. -/
theorem extractPlaylistId_correct :
    (∀ url : List Char, extractPlaylistId url = none ↔
      ∀ i, i < url.length → tryMatchHere (url.drop i) = none)
    ∧ (∀ pre pid suf : List Char, pid.length = 22 → pid.all isAlnumChar = true →
      (∀ j, j < pre.length →
        tryMatchHere ((pre ++ playlistLit ++ pid ++ suf).drop j) = none) →
      extractPlaylistId (pre ++ playlistLit ++ pid ++ suf) = some pid) := by
  constructor
  · exact extract_none_iff
  · intro pre pid suf hlen halnum hearly
    have hassoc : pre ++ playlistLit ++ pid ++ suf
        = pre ++ (playlistLit ++ (pid ++ suf)) := by
      simp [List.append_assoc]
    rw [hassoc] at hearly ⊢
    rw [extract_skip _ _ hearly]
    exact extract_head _ _ (tryMatchHere_exact pid suf hlen halnum)

/-- Witness for C7: a real playlist URL yields its embedded identifier; a URL
without the pattern yields `none`. -/
theorem extractPlaylistId_correct_check :
    extractPlaylistId ("https://open.spotify.com/".toList ++ playlistLit ++
        "37i9dQZF1DXcBWIGoYBM5M".toList ++ "?si=abc".toList)
      = some ("37i9dQZF1DXcBWIGoYBM5M".toList)
    ∧ extractPlaylistId ("https://example.com/album/1234".toList) = none := by
  constructor
  · exact extractPlaylistId_correct.2 _ _ _ (by decide) (by decide) (by decide)
  · exact (extractPlaylistId_correct.1 _).mpr (by decide)

/-- C10: when the first occurrence of `playlist/` is followed by a run of
more than 22 alphanumeric characters, extraction does not reject the URL but
returns exactly the first 22 characters of the run. -/
theorem extractPlaylistId_long_run_takes_22 :
    ∀ pre run suf : List Char, 22 < run.length → run.all isAlnumChar = true →
      (∀ j, j < pre.length →
        ((pre ++ playlistLit ++ run ++ suf).drop j).take 9 ≠ playlistLit) →
      extractPlaylistId (pre ++ playlistLit ++ run ++ suf) = some (run.take 22) := by
  intro pre run suf hlen halnum hearly
  have hassoc : pre ++ playlistLit ++ run ++ suf
      = pre ++ (playlistLit ++ (run ++ suf)) := by
    simp [List.append_assoc]
  rw [hassoc] at hearly ⊢
  have hnone : ∀ j, j < pre.length →
      tryMatchHere ((pre ++ (playlistLit ++ (run ++ suf))).drop j) = none := by
    intro j hj
    unfold tryMatchHere
    rw [if_neg (hearly j hj)]
  rw [extract_skip _ _ hnone]
  exact extract_head _ _ (tryMatchHere_long run suf hlen halnum)

/-- Witness for C10: a URL whose identifier slot holds a 30-character
alphanumeric run is not rejected; the first 22 characters are returned. -/
theorem extractPlaylistId_long_run_takes_22_check :
    extractPlaylistId ("https://open.spotify.com/".toList ++ playlistLit ++
        "012345678901234567890123456789".toList ++ "?x=1".toList)
      = some ("0123456789012345678901".toList) := by
  have h := extractPlaylistId_long_run_takes_22 ("https://open.spotify.com/".toList)
    ("012345678901234567890123456789".toList) ("?x=1".toList)
    (by decide) (by decide) (by decide)
  exact h

/-- C6: the mean computation is the arithmetic mean of the per-track values
with a missing value counted as 0 — `calculateAveragePopularity` returns 0 on
the empty list and `(a+b+c)/3` on three tracks, and the inline feature mean
of the category variant agrees on every non-empty metric set. -/
theorem mean_is_arithmetic_mean :
    App.calculateAveragePopularity [] = 0
    ∧ (∀ tracks : List App.Track, tracks ≠ [] →
        App.calculateAveragePopularity tracks =
          (tracks.map (fun t => t.popularity.getD 0)).sum / (tracks.length : Rat))
    ∧ (∀ n1 n2 n3 : String, ∀ a b c : Rat,
        App.calculateAveragePopularity
          [⟨n1, some a⟩, ⟨n2, some b⟩, ⟨n3, some c⟩] = (a + b + c) / 3)
    ∧ (∀ (af : List Category.FeatureRecord) (key : String), af ≠ [] →
        Category.avgFeature af key =
          (af.map (fun t => (t.lookup key).getD 0)).sum / (af.length : Rat)) := by
  refine ⟨rfl, ?_, ?_, ?_⟩
  · intro tracks hne
    unfold App.calculateAveragePopularity
    rw [if_neg (by simpa [List.length_eq_zero] using hne)]
    rw [foldl_add_map_sum, zero_add]
  · intro n1 n2 n3 a b c
    unfold App.calculateAveragePopularity
    norm_num
  · intro af key hne
    unfold Category.avgFeature
    rw [foldl_add_map_sum, zero_add]

/-- Witness for C6: concrete means, including a track with a missing
popularity counted as 0. -/
theorem mean_is_arithmetic_mean_check :
    App.calculateAveragePopularity [⟨"a", some 10⟩, ⟨"b", none⟩] =
      (([⟨"a", some 10⟩, ⟨"b", none⟩] : List App.Track).map
        (fun t => t.popularity.getD 0)).sum /
        ((([⟨"a", some 10⟩, ⟨"b", none⟩] : List App.Track).length : Nat) : Rat)
    ∧ Category.avgFeature [⟨some 1, none, none, none, none⟩] "valence" =
      (([⟨some 1, none, none, none, none⟩] : List Category.FeatureRecord).map
        (fun t => (t.lookup "valence").getD 0)).sum /
        ((([⟨some 1, none, none, none, none⟩] : List Category.FeatureRecord).length : Nat) : Rat) := by
  constructor
  · exact mean_is_arithmetic_mean.2.1 _ (by decide)
  · exact mean_is_arithmetic_mean.2.2.2 _ _ (by decide)

/-- Counterexample to C3: a 429 failure and any other upstream failure
produce the very same thrown error, so the caller cannot distinguish them. -/
theorem rate_limit_indistinguishable :
    Category.getAudioFeatures ["aaaaaaaaaaaaaaaaaaaaaa"]
        (.error .rateLimited)
      = Category.getAudioFeatures ["aaaaaaaaaaaaaaaaaaaaaa"] (.error .other)
    ∧ Category.getAudioFeatures ["aaaaaaaaaaaaaaaaaaaaaa"]
        (.error .rateLimited)
      = .error "Failed to fetch audio features" := ⟨rfl, rfl⟩

/-- C3 amended: whatever the upstream failure (429 included — it only changes
the console log), `getAudioFeatures` throws the same generic
`Failed to fetch audio features` error. -/
theorem getAudioFeatures_upstream_error_generic
    (trackIds : List String) (e : Category.HttpFailure) :
    Category.getAudioFeatures trackIds (.error e) =
      .error "Failed to fetch audio features" := by
  simp only [Category.getAudioFeatures]
  split <;> rfl

/-- Counterexample to C2: a response whose only entry is dropped by the
filter (a null track in the App variant, a missing identifier in the category
variant) is returned as an empty success, not a failure. -/
theorem getPlaylistTracks_empty_after_filter_succeeds :
    App.getPlaylistTracks (.ok ⟨some [⟨none⟩]⟩) = .ok []
    ∧ Category.getPlaylistTracks (.ok ⟨some [⟨some ⟨none⟩⟩]⟩) = .ok [] :=
  ⟨rfl, rfl⟩

/-- C2 amended: `getPlaylistTracks` fails when the upstream request errors or
the raw `items` array is missing or empty; the emptiness check precedes the
filter, so a non-empty `items` array whose entries are all filtered out
(missing track reference or missing identifier) is returned as an empty
success. -/
theorem getPlaylistTracks_failure_before_filter :
    (App.getPlaylistTracks (.error ()) = .error "Failed to fetch playlist data"
      ∧ App.getPlaylistTracks (.ok ⟨none⟩) = .error "Failed to fetch playlist data"
      ∧ App.getPlaylistTracks (.ok ⟨some []⟩) = .error "Failed to fetch playlist data")
    ∧ (∀ items : List App.PlaylistItem, items ≠ [] →
        (∀ item ∈ items, App.keepItem item = none) →
        App.getPlaylistTracks (.ok ⟨some items⟩) = .ok [])
    ∧ (Category.getPlaylistTracks (.error ()) = .error "Failed to fetch playlist data"
      ∧ Category.getPlaylistTracks (.ok ⟨none⟩) = .error "Failed to fetch playlist data"
      ∧ Category.getPlaylistTracks (.ok ⟨some []⟩) = .error "Failed to fetch playlist data")
    ∧ (∀ items : List Category.PlaylistItem, items ≠ [] →
        (∀ item ∈ items, ∃ t, item.track = some t ∧ (t.id = none ∨ t.id = some "")) →
        Category.getPlaylistTracks (.ok ⟨some items⟩) = .ok []) := by
  refine ⟨⟨rfl, rfl, rfl⟩, ?_, ⟨rfl, rfl, rfl⟩, ?_⟩
  · intro items hne hall
    simp only [App.getPlaylistTracks]
    rw [if_neg (by simpa [List.length_eq_zero] using hne)]
    rw [List.filterMap_eq_nil_iff.mpr hall]
  · intro items hne hall
    have hany : items.any (fun item => item.track.isNone) = false := by
      rw [← Bool.not_eq_true, List.any_eq_true]
      push_neg
      intro item hitem
      obtain ⟨t, ht, _⟩ := hall item hitem
      simp [ht]
    have hfm : items.filterMap (fun item =>
        match item.track with
        | none => none
        | some t =>
          match t.id with
          | none => none
          | some tid => if tid = "" then none else some tid) = [] := by
      apply List.filterMap_eq_nil_iff.mpr
      intro item hitem
      obtain ⟨t, ht, hid⟩ := hall item hitem
      rcases hid with h1 | h1 <;> simp [ht, h1]
    simp only [Category.getPlaylistTracks]
    rw [if_neg (by simpa [List.length_eq_zero] using hne)]
    rw [if_neg (by simp [hany])]
    rw [hfm]

/-- Witness for C2 amended: concrete all-filtered responses give empty
successes. -/
theorem getPlaylistTracks_failure_before_filter_check :
    App.getPlaylistTracks (.ok ⟨some [⟨some ⟨none, some 50⟩⟩]⟩) = .ok []
    ∧ Category.getPlaylistTracks (.ok ⟨some [⟨some ⟨some ""⟩⟩]⟩) = .ok [] := by
  constructor
  · exact getPlaylistTracks_failure_before_filter.2.1 _ (by decide) (by
      intro item hitem
      simp only [List.mem_singleton] at hitem
      subst hitem
      rfl)
  · exact getPlaylistTracks_failure_before_filter.2.2.2 _ (by decide) (by
      intro item hitem
      simp only [List.mem_singleton] at hitem
      subst hitem
      exact ⟨⟨some ""⟩, rfl, Or.inr rfl⟩)

/-- C8: a call to `getToken` with a cached non-empty token whose stored
expiry is strictly in the future returns the cached token with zero exchange
requests and the state unchanged; otherwise exactly one exchange request is
issued and the cache receives the returned token with expiry
`now + expires_in * 1000` (milliseconds, i.e. the current time plus
`expires_in` seconds). -/
theorem getToken_cache_policy (st : TokenState) (now : Int) :
    (∀ (resp : Except Unit TokenResponse) (t : String) (e : Int),
      st.token = some t → t ≠ "" → st.tokenExpirationTime = some e → now < e →
      getToken st now resp = (.ok t, st, 0))
    ∧ (∀ r : TokenResponse, cacheValid st now = false →
      getToken st now (.ok r) =
        (.ok r.access_token,
          { token := some r.access_token,
            tokenExpirationTime := some (now + r.expires_in * 1000) }, 1)) := by
  constructor
  · intro resp t e ht hne he hlt
    have hvalid : cacheValid st now = true := by
      simp [cacheValid, truthyToken, expiryValue, ht, he, hne, hlt]
    simp [getToken, hvalid, ht]
  · intro r hinvalid
    simp [getToken, hinvalid]

/-- Witness for C8: a valid cache is returned untouched with zero requests;
an empty cache triggers exactly one exchange that fills the cache. -/
theorem getToken_cache_policy_check :
    getToken ⟨some "tok", some 100⟩ 50 (.ok ⟨"fresh", 3600⟩)
      = (.ok "tok", ⟨some "tok", some 100⟩, 0)
    ∧ getToken ⟨none, none⟩ 50 (.ok ⟨"fresh", 3600⟩)
      = (.ok "fresh", ⟨some "fresh", some (50 + 3600 * 1000)⟩, 1) := by
  constructor
  · exact (getToken_cache_policy _ _).1 _ "tok" 100 rfl (by decide) rfl (by decide)
  · exact (getToken_cache_policy _ _).2 _ (by decide)

/-- Counterexample to C9: the label `constructor` is absent from the fixed
`categoryMapping` object literal, yet the JS lookup resolves it through the
prototype chain to the truthy inherited `Object.prototype.constructor`, so
`determineWinner` does not return `Invalid category`: it issues all four
fetches, every `track[featureKey]` read misses (counted as 0, here despite a
non-zero valence), and the tie of zero means declares playlist 2 the
winner. -/
theorem prototype_category_not_rejected :
    Category.determineWinner
      ⟨.ok ⟨some [⟨some ⟨some "aaaaaaaaaaaaaaaaaaaaaa"⟩⟩]⟩,
       .ok ⟨some [⟨some ⟨some "bbbbbbbbbbbbbbbbbbbbbb"⟩⟩]⟩,
       .ok ⟨some [⟨some 1, none, none, none, none⟩]⟩,
       .ok ⟨some [⟨some 0, none, none, none, none⟩]⟩⟩ "constructor"
      = (.ok "Playlist 2 is more constructor", 4) := by
  with_unfolding_all rfl

/-- C9 amended: in the category variant, a category label whose lookup on
the fixed `categoryMapping` is falsy — absent both from the six own entries
and from the inherited `Object.prototype` member names (the empty string
included) — makes `determineWinner` return the plain string
`Invalid category` as a normal (non-thrown) result with zero playlist or
feature fetches, whatever the upstream would have answered; a label whose
lookup is truthy (an own entry or an inherited prototype member such as
`constructor`) instead enters the pipeline and issues at least one fetch. -/
theorem invalid_category_short_circuits :
    (∀ (o : Category.Oracles) (category : String),
      Category.categoryMapping category = none →
      Category.determineWinner o category = (.ok "Invalid category", 0))
    ∧ (∀ (o : Category.Oracles) (category : String),
      Category.categoryMapping category ≠ none →
      (Category.determineWinner o category).2 ≠ 0) := by
  constructor
  · intro o category h
    unfold Category.determineWinner
    rw [h]
  · intro o category h
    unfold Category.determineWinner
    split
    · next heq => exact absurd heq h
    · next k heq =>
      split
      · simp
      · split
        · simp
        · split
          · simp
          · split
            · simp
            · split
              · simp
              · simp

/-- Witness for C9 amended: the empty label and an unknown label both
short-circuit even when every upstream request would fail, while the
inherited prototype member name `constructor` starts fetching. -/
theorem invalid_category_short_circuits_check :
    Category.determineWinner ⟨.error (), .error (), .error .other, .error .other⟩ ""
      = (.ok "Invalid category", 0)
    ∧ Category.determineWinner ⟨.error (), .error (), .error .other, .error .other⟩ "Rockier"
      = (.ok "Invalid category", 0)
    ∧ (Category.determineWinner ⟨.error (), .error (), .error .other, .error .other⟩
        "constructor").2 ≠ 0 :=
  ⟨invalid_category_short_circuits.1 _ _ rfl,
   invalid_category_short_circuits.1 _ _ rfl,
   invalid_category_short_circuits.2 _ _ (by decide)⟩

/-- Counterexample to C1: in the category variant two metric sets with equal
means do not produce a distinct both-equal result — playlist 2 is declared
the winner, under the Sadder rule and under a regular rule alike. -/
theorem category_tie_declares_playlist2_winner :
    (Category.determineWinner
      ⟨.ok ⟨some [⟨some ⟨some "aaaaaaaaaaaaaaaaaaaaaa"⟩⟩]⟩,
       .ok ⟨some [⟨some ⟨some "bbbbbbbbbbbbbbbbbbbbbb"⟩⟩]⟩,
       .ok ⟨some [⟨some (1/2), none, none, none, none⟩]⟩,
       .ok ⟨some [⟨some (1/2), none, none, none, none⟩]⟩⟩ "Sadder").1
      = .ok "Playlist 2 is sadder"
    ∧ (Category.determineWinner
      ⟨.ok ⟨some [⟨some ⟨some "aaaaaaaaaaaaaaaaaaaaaa"⟩⟩]⟩,
       .ok ⟨some [⟨some ⟨some "bbbbbbbbbbbbbbbbbbbbbb"⟩⟩]⟩,
       .ok ⟨some [⟨some (1/2), none, none, none, none⟩]⟩,
       .ok ⟨some [⟨some (1/2), none, none, none, none⟩]⟩⟩ "Happier").1
      = .ok "Playlist 2 is more happier" := by
  constructor <;> with_unfolding_all rfl

/-- C1 amended: equal means give the distinct both-equal result only in the
popularity variant; in the category variant the tie falls into the else arm
of the ternary and playlist 2 is declared the winner. -/
theorem tie_result_by_variant :
    (∀ (r1 r2 : Except Unit App.TracksResponse)
       (i1 i2 : Except Unit App.InfoResponse)
       (t1 t2 : List App.Track) (info1 info2 : App.PlaylistInfo),
      App.getPlaylistTracks r1 = .ok t1 → App.getPlaylistTracks r2 = .ok t2 →
      App.getPlaylistInfo i1 = .ok info1 → App.getPlaylistInfo i2 = .ok info2 →
      t1 ≠ [] → t2 ≠ [] →
      App.calculateAveragePopularity t1 = App.calculateAveragePopularity t2 →
      App.determineWinner r1 r2 i1 i2 =
        .ok { name := none, image := none,
              message := "Both playlists are equally underground!" })
    ∧ (∀ (o : Category.Oracles) (category featureKey : String)
         (t1 t2 : List String) (af1 af2 : List Category.FeatureRecord),
      Category.categoryMapping category = some (.feature featureKey) →
      Category.getPlaylistTracks o.tracksResp1 = .ok t1 →
      Category.getPlaylistTracks o.tracksResp2 = .ok t2 →
      t1 ≠ [] → t2 ≠ [] →
      Category.getAudioFeatures t1 o.featuresResp1 = .ok af1 →
      Category.getAudioFeatures t2 o.featuresResp2 = .ok af2 →
      Category.avgFeature af1 featureKey = Category.avgFeature af2 featureKey →
      (Category.determineWinner o category).1 =
        .ok (if category = "Sadder" then "Playlist 2 is sadder"
             else "Playlist 2 is more " ++ category.toLower)) := by
  constructor
  · intro r1 r2 i1 i2 t1 t2 info1 info2 h1 h2 h3 h4 hn1 hn2 heq
    have hl1 : t1.length ≠ 0 := by simpa [List.length_eq_zero] using hn1
    have hl2 : t2.length ≠ 0 := by simpa [List.length_eq_zero] using hn2
    unfold App.determineWinner
    rw [h1, h2, h3, h4]
    simp [hl1, hl2, heq, lt_irrefl]
  · intro o category featureKey t1 t2 af1 af2 hmap h1 h2 hn1 hn2 hf1 hf2 heq
    have hl1 : t1.length ≠ 0 := by simpa [List.length_eq_zero] using hn1
    have hl2 : t2.length ≠ 0 := by simpa [List.length_eq_zero] using hn2
    unfold Category.determineWinner
    rw [hmap, h1, h2]
    simp only [hl1, hl2]
    rw [if_neg (by simp [hl1, hl2])]
    rw [hf1, hf2]
    simp [Category.PropValue.toKey, heq, lt_irrefl]

/-- Witness for C1 amended: on equal means the popularity variant produces
the both-equal message, while the category variant declares playlist 2 the
winner. -/
theorem tie_result_by_variant_check :
    App.determineWinner (.ok ⟨some [⟨some ⟨some "a", some 10⟩⟩]⟩)
        (.ok ⟨some [⟨some ⟨some "a", some 10⟩⟩]⟩)
        (.ok ⟨"P1", [⟨some "img1"⟩]⟩) (.ok ⟨"P2", [⟨some "img2"⟩]⟩)
      = .ok { name := none, image := none,
              message := "Both playlists are equally underground!" }
    ∧ (Category.determineWinner
        ⟨.ok ⟨some [⟨some ⟨some "cccccccccccccccccccccc"⟩⟩]⟩,
         .ok ⟨some [⟨some ⟨some "dddddddddddddddddddddd"⟩⟩]⟩,
         .ok ⟨some [⟨some (1/2), none, none, none, none⟩]⟩,
         .ok ⟨some [⟨some (1/2), none, none, none, none⟩]⟩⟩ "Sadder").1
      = .ok "Playlist 2 is sadder" := by
  constructor
  · exact tie_result_by_variant.1 _ _ _ _
      [⟨"a", some 10⟩] [⟨"a", some 10⟩] ⟨"P1", "img1"⟩ ⟨"P2", "img2"⟩
      rfl rfl rfl rfl (by decide) (by decide) rfl
  · exact tie_result_by_variant.2 _ "Sadder" "valence"
      ["cccccccccccccccccccccc"] ["dddddddddddddddddddddd"]
      [⟨some (1/2), none, none, none, none⟩] [⟨some (1/2), none, none, none, none⟩]
      rfl rfl rfl (by decide) (by decide) rfl rfl rfl

/-- C4: in the popularity variant, when both playlists have tracks and the
average popularities differ, `determineWinner` attaches the display name and
cover image of the playlist with the lower average popularity (the more
underground one) to the result. -/
theorem underground_winner_attaches_loser_info
    (r1 r2 : Except Unit App.TracksResponse) (i1 i2 : Except Unit App.InfoResponse)
    (t1 t2 : List App.Track) (info1 info2 : App.PlaylistInfo)
    (h1 : App.getPlaylistTracks r1 = .ok t1) (h2 : App.getPlaylistTracks r2 = .ok t2)
    (h3 : App.getPlaylistInfo i1 = .ok info1) (h4 : App.getPlaylistInfo i2 = .ok info2)
    (hn1 : t1 ≠ []) (hn2 : t2 ≠ []) :
    (App.calculateAveragePopularity t1 < App.calculateAveragePopularity t2 →
      App.determineWinner r1 r2 i1 i2 =
        .ok { name := some info1.name, image := some info1.image,
              message := info1.name ++ " is more underground, smell some good taste in there!" })
    ∧ (App.calculateAveragePopularity t2 < App.calculateAveragePopularity t1 →
      App.determineWinner r1 r2 i1 i2 =
        .ok { name := some info2.name, image := some info2.image,
              message := info2.name ++ " is more underground, smell some good taste in there!" }) := by
  have hl1 : t1.length ≠ 0 := by simpa [List.length_eq_zero] using hn1
  have hl2 : t2.length ≠ 0 := by simpa [List.length_eq_zero] using hn2
  constructor
  · intro hlt
    unfold App.determineWinner
    rw [h1, h2, h3, h4]
    simp [hl1, hl2, hlt, lt_asymm hlt]
  · intro hgt
    unfold App.determineWinner
    rw [h1, h2, h3, h4]
    simp [hl1, hl2, hgt]

/-- Witness for C4: P1 with popularities [10, 20, 30] against P2 with
[80, 90] declares P1 more underground and attaches the P1 name and cover. -/
theorem underground_winner_attaches_loser_info_check :
    App.determineWinner
        (.ok ⟨some [⟨some ⟨some "s1", some 10⟩⟩, ⟨some ⟨some "s2", some 20⟩⟩,
                    ⟨some ⟨some "s3", some 30⟩⟩]⟩)
        (.ok ⟨some [⟨some ⟨some "s4", some 80⟩⟩, ⟨some ⟨some "s5", some 90⟩⟩]⟩)
        (.ok ⟨"P1", [⟨some "img1"⟩]⟩) (.ok ⟨"P2", [⟨some "img2"⟩]⟩)
      = .ok { name := some "P1", image := some "img1",
              message := "P1 is more underground, smell some good taste in there!" } := by
  exact (underground_winner_attaches_loser_info
    (.ok ⟨some [⟨some ⟨some "s1", some 10⟩⟩, ⟨some ⟨some "s2", some 20⟩⟩,
                ⟨some ⟨some "s3", some 30⟩⟩]⟩)
    (.ok ⟨some [⟨some ⟨some "s4", some 80⟩⟩, ⟨some ⟨some "s5", some 90⟩⟩]⟩)
    (.ok ⟨"P1", [⟨some "img1"⟩]⟩) (.ok ⟨"P2", [⟨some "img2"⟩]⟩)
    [⟨"s1", some 10⟩, ⟨"s2", some 20⟩, ⟨"s3", some 30⟩]
    [⟨"s4", some 80⟩, ⟨"s5", some 90⟩]
    ⟨"P1", "img1"⟩ ⟨"P2", "img2"⟩ rfl rfl rfl rfl
    (by decide) (by decide)).1 (by with_unfolding_all decide)

/-- C5: under the inverted-polarity Sadder rule the metric set with the
strictly lower mean is reported as the winner, for either side. -/
theorem sadder_lower_mean_wins
    (o : Category.Oracles) (t1 t2 : List String)
    (af1 af2 : List Category.FeatureRecord)
    (h1 : Category.getPlaylistTracks o.tracksResp1 = .ok t1)
    (h2 : Category.getPlaylistTracks o.tracksResp2 = .ok t2)
    (hn1 : t1 ≠ []) (hn2 : t2 ≠ [])
    (hf1 : Category.getAudioFeatures t1 o.featuresResp1 = .ok af1)
    (hf2 : Category.getAudioFeatures t2 o.featuresResp2 = .ok af2) :
    (Category.avgFeature af1 "valence" < Category.avgFeature af2 "valence" →
      (Category.determineWinner o "Sadder").1 = .ok "Playlist 1 is sadder")
    ∧ (Category.avgFeature af2 "valence" < Category.avgFeature af1 "valence" →
      (Category.determineWinner o "Sadder").1 = .ok "Playlist 2 is sadder") := by
  have hl1 : t1.length ≠ 0 := by simpa [List.length_eq_zero] using hn1
  have hl2 : t2.length ≠ 0 := by simpa [List.length_eq_zero] using hn2
  constructor
  · intro hlt
    unfold Category.determineWinner
    rw [show Category.categoryMapping "Sadder" = some (.feature "valence") from rfl, h1, h2]
    simp [Category.PropValue.toKey, hl1, hl2, hf1, hf2, hlt]
  · intro hgt
    unfold Category.determineWinner
    rw [show Category.categoryMapping "Sadder" = some (.feature "valence") from rfl, h1, h2]
    simp [Category.PropValue.toKey, hl1, hl2, hf1, hf2, lt_asymm hgt]

/-- Witness for C5: set A with mean 0.2 against set B with mean 0.8 under
the Sadder rule reports A (playlist 1) as winner. -/
theorem sadder_lower_mean_wins_check :
    (Category.determineWinner
        ⟨.ok ⟨some [⟨some ⟨some "cccccccccccccccccccccc"⟩⟩]⟩,
         .ok ⟨some [⟨some ⟨some "dddddddddddddddddddddd"⟩⟩]⟩,
         .ok ⟨some [⟨some (2/10), none, none, none, none⟩]⟩,
         .ok ⟨some [⟨some (8/10), none, none, none, none⟩]⟩⟩ "Sadder").1
      = .ok "Playlist 1 is sadder" := by
  exact (sadder_lower_mean_wins
    ⟨.ok ⟨some [⟨some ⟨some "cccccccccccccccccccccc"⟩⟩]⟩,
     .ok ⟨some [⟨some ⟨some "dddddddddddddddddddddd"⟩⟩]⟩,
     .ok ⟨some [⟨some (2/10), none, none, none, none⟩]⟩,
     .ok ⟨some [⟨some (8/10), none, none, none, none⟩]⟩⟩
    ["cccccccccccccccccccccc"] ["dddddddddddddddddddddd"]
    [⟨some (2/10), none, none, none, none⟩] [⟨some (8/10), none, none, none, none⟩]
    rfl rfl (by decide) (by decide) rfl rfl).1 (by with_unfolding_all decide)

end ShuffleBattle
